import Mathlib

/-!
Verification development for the aihwkit example script
`examples/15_simple_lstm.py`.

The script is straight-line Python gluing together dataset synthesis,
model selection, a training loop, a drift sweep and plotting.  We give a
shallow embedding: tensors become nested lists of real numbers indexed as
[time, batch, channel], the torch operations used by the script (linspace,
sin/cos, slicing, roll, stack/transpose/unsqueeze, MSE loss) become Lean
functions on those lists, and the external aihwkit collaborators (the
analog layers, the optimizer step, the drift mutator) become explicit
function parameters, since their code is outside the example file.
-/

namespace SimpleLSTM

/-- Rank-3 tensors, indexed as [time-step, batch-index, feature-channel]. -/
abbrev Tensor3 := List (List (List ℝ))

/-- Source constant `NOISE = 0.0` (line 50 of the script). -/
def NOISE : ℝ := 0

/-- Source constant `EPOCHS = 100` (line 52). -/
def EPOCHS : ℕ := 100

/-- Source constant `BATCH_SIZE = 5` (line 53). -/
def BATCH_SIZE : ℕ := 5

/-- Source constant `SEQ_LEN = 501` (line 54). -/
def SEQ_LEN : ℕ := 501

/-- Model of `torch.linspace(a, b, n)`: n evenly spaced points from a to b
inclusive.  Point k is a + (b - a) * k / (n - 1); for n = 1 the division by
zero yields the start point a, matching torch, which returns [a]. -/
noncomputable def linspace (a b : ℝ) (n : ℕ) : List ℝ :=
  (List.range n).map (fun k : ℕ => a + (b - a) * (k : ℝ) / ((n - 1 : ℕ) : ℝ))

/-- The base signal applied pointwise: `y = torch.sin(x)*torch.cos(0.5*x) + 0.5`
(line 91). -/
noncomputable def yOfX (x : ℝ) : ℝ := Real.sin x * Real.cos (0.5 * x) + 0.5

/-- The sampled signal `y` on `x = torch.linspace(0, 8*np.pi, SEQ_LEN)`
(lines 90-91), with the sequence length L kept as a parameter. -/
noncomputable def yFull (L : ℕ) : List ℝ := (linspace 0 (8 * Real.pi) L).map yOfX

/-- Slice `y_in_1d = y[0:SEQ_LEN-1]` (line 92). -/
noncomputable def y_in_1d (L : ℕ) : List ℝ := (yFull L).take (L - 1)

/-- Slice `y_out_1d = y[1:SEQ_LEN]` (line 93). -/
noncomputable def y_out_1d (L : ℕ) : List ℝ := (yFull L).drop 1

/-- Index map of `torch.roll` with a non-negative shift s on a length-n axis:
output position j reads input position (j - s) mod n, written with natural
subtraction as (j + (n - s mod n)) mod n. -/
def rollIdx (n s j : ℕ) : ℕ := (j + (n - s % n)) % n

/-- Model of `torch.roll(l, shifts=s, dims=0)` on a 1-D tensor. -/
def rollList (s : ℕ) (l : List ℝ) : List ℝ :=
  (List.range l.length).map (fun j => l.getD (rollIdx l.length s j) 0)

/-- Elementwise `l + noise*torch.rand(l.shape)` (lines 97-98), with the random
tensor supplied as a function from element position to its drawn value. -/
noncomputable def noiseRow (noise : ℝ) (rand : ℕ → ℝ) (l : List ℝ) : List ℝ :=
  List.zipWith (fun v r => v + noise * r) l ((List.range l.length).map rand)

/-- The python list `y_in_2d` after the loop of lines 95-98: row i is the base
input slice rolled by 100*i samples plus the noise term. -/
noncomputable def y_in_2d (L B : ℕ) (noise : ℝ) (randIn : ℕ → ℕ → ℝ) :
    List (List ℝ) :=
  List.ofFn (fun i : Fin B => noiseRow noise (randIn i) (rollList (100 * i) (y_in_1d L)))

/-- The python list `y_out_2d` after the loop of lines 95-98. -/
noncomputable def y_out_2d (L B : ℕ) (noise : ℝ) (randOut : ℕ → ℕ → ℝ) :
    List (List ℝ) :=
  List.ofFn (fun i : Fin B => noiseRow noise (randOut i) (rollList (100 * i) (y_out_1d L)))

/-- Model of `.transpose(0, 1)` on a rectangular rank-2 tensor. -/
def transpose01 (m : List (List ℝ)) : List (List ℝ) :=
  match m with
  | [] => []
  | r :: _ => (List.range r.length).map (fun t => m.map (fun row => row.getD t 0))

/-- Model of `.unsqueeze(2)` on a rank-2 tensor: every scalar becomes a
length-1 channel vector. -/
def unsqueeze2 (m : List (List ℝ)) : Tensor3 :=
  m.map (fun row => row.map (fun v => [v]))

/-- The tensor `y_in = torch.stack(y_in_2d, dim=0).transpose(0, 1).unsqueeze(2)`
(line 99); stacking the python list of rows along dim 0 is the identity in the
list model. -/
noncomputable def y_in (L B : ℕ) (noise : ℝ) (randIn : ℕ → ℕ → ℝ) : Tensor3 :=
  unsqueeze2 (transpose01 (y_in_2d L B noise randIn))

/-- The tensor `y_out` (line 100). -/
noncomputable def y_out (L B : ℕ) (noise : ℝ) (randOut : ℕ → ℕ → ℝ) : Tensor3 :=
  unsqueeze2 (transpose01 (y_out_2d L B noise randOut))

/-- Entry access for rank-3 tensors, with default 0 out of range. -/
def get3 (t : Tensor3) (a b c : ℕ) : ℝ := ((t.getD a []).getD b []).getD c 0

/-- Shape predicate for rank-3 tensors. -/
def hasShape3 (t : Tensor3) (d0 d1 d2 : ℕ) : Prop :=
  t.length = d0 ∧ ∀ r ∈ t, r.length = d1 ∧ ∀ c ∈ r, c.length = d2

/-- Closed form of the k-th sample point of `torch.linspace(0, 8*np.pi, L)`. -/
noncomputable def linVal (L k : ℕ) : ℝ := 0 + (8 * Real.pi - 0) * (k : ℝ) / ((L - 1 : ℕ) : ℝ)

/-- Closed form of the k-th sample of the base signal `y`. -/
noncomputable def yVal (L k : ℕ) : ℝ := yOfX (linVal L k)

/-! ### Basic access and length lemmas -/

lemma getD_map_range {α : Type} (n : ℕ) (f : ℕ → α) (t : ℕ) (d : α) (h : t < n) :
    ((List.range n).map f).getD t d = f t := by
  simp [List.getD_eq_getElem?_getD, List.getElem?_map, List.getElem?_range h]

lemma getD_map_of_lt {α β : Type} (l : List α) (f : α → β) (i : ℕ) (d : α) (d' : β)
    (h : i < l.length) :
    (l.map f).getD i d' = f (l.getD i d) := by
  simp [List.getD_eq_getElem?_getD, List.getElem?_map, List.getElem?_eq_getElem h]

lemma getD_ofFn_of_lt {α : Type} {n : ℕ} (f : Fin n → α) (i : ℕ) (d : α) (h : i < n) :
    (List.ofFn f).getD i d = f ⟨i, h⟩ := by
  simp [List.getD_eq_getElem?_getD, List.getElem?_ofFn, h]

lemma getD_take_of_lt (l : List ℝ) (n i : ℕ) (h : i < n) (hl : i < l.length) :
    (l.take n).getD i 0 = l.getD i 0 := by
  simp [List.getD_eq_getElem?_getD, List.getElem?_take, h, List.getElem?_eq_getElem hl]

lemma getD_drop (l : List ℝ) (n i : ℕ) :
    (l.drop n).getD i 0 = l.getD (n + i) 0 := by
  simp [List.getD_eq_getElem?_getD, List.getElem?_drop]

lemma length_linspace (a b : ℝ) (n : ℕ) : (linspace a b n).length = n := by
  rw [linspace, List.length_map, List.length_range]

lemma length_yFull (L : ℕ) : (yFull L).length = L := by
  rw [yFull, List.length_map, length_linspace]

lemma length_y_in_1d (L : ℕ) : (y_in_1d L).length = L - 1 := by
  rw [y_in_1d, List.length_take, length_yFull]
  omega

lemma length_y_out_1d (L : ℕ) : (y_out_1d L).length = L - 1 := by
  rw [y_out_1d, List.length_drop, length_yFull]

lemma length_rollList (s : ℕ) (l : List ℝ) : (rollList s l).length = l.length := by
  simp [rollList]

lemma length_noiseRow (noise : ℝ) (rand : ℕ → ℝ) (l : List ℝ) :
    (noiseRow noise rand l).length = l.length := by
  simp [noiseRow]

lemma yFull_getD (L k : ℕ) (h : k < L) : (yFull L).getD k 0 = yVal L k := by
  rw [yFull, linspace, List.map_map]
  rw [getD_map_range L _ k 0 h]
  rfl

lemma y_in_1d_getD (L k : ℕ) (h : k < L - 1) : (y_in_1d L).getD k 0 = yVal L k := by
  rw [y_in_1d, getD_take_of_lt _ _ _ h (by rw [length_yFull]; omega)]
  exact yFull_getD L k (by omega)

lemma y_out_1d_getD (L k : ℕ) (h : k < L - 1) :
    (y_out_1d L).getD k 0 = yVal L (k + 1) := by
  rw [y_out_1d, getD_drop]
  rw [Nat.add_comm 1 k]
  exact yFull_getD L (k + 1) (by omega)

lemma rollIdx_lt (n s j : ℕ) (hn : 0 < n) : rollIdx n s j < n :=
  Nat.mod_lt _ hn

lemma rollIdx_zero_shift (n j : ℕ) (h : j < n) : rollIdx n 0 j = j := by
  simp [rollIdx, Nat.mod_eq_of_lt h]

lemma rollIdx_succ (n s j : ℕ) :
    rollIdx n s (j + 1) = (rollIdx n s j + 1) % n := by
  unfold rollIdx
  rw [Nat.mod_add_mod]
  ring_nf

lemma rollList_getD (s : ℕ) (l : List ℝ) (j : ℕ) (h : j < l.length) :
    (rollList s l).getD j 0 = l.getD (rollIdx l.length s j) 0 := by
  rw [rollList, getD_map_range _ _ j 0 h]

lemma noiseRow_getD (noise : ℝ) (rand : ℕ → ℝ) (l : List ℝ) (j : ℕ)
    (h : j < l.length) :
    (noiseRow noise rand l).getD j 0 = l.getD j 0 + noise * rand j := by
  rw [noiseRow]
  rw [List.getD_eq_getElem?_getD]
  rw [List.getElem?_zipWith]
  rw [List.getElem?_eq_getElem h]
  rw [List.getElem?_eq_getElem (by simpa using h :
    j < ((List.range l.length).map rand).length)]
  simp [List.getD_eq_getElem?_getD, List.getElem?_eq_getElem h]

/-! ### Entry and shape lemmas for the stacked batch tensors -/

lemma transpose01_cons (r : List ℝ) (rest : List (List ℝ)) :
    transpose01 (r :: rest) =
      (List.range r.length).map (fun t => (r :: rest).map (fun row => row.getD t 0)) := rfl

lemma get3_unsq_transpose (m : List (List ℝ)) (T t i : ℕ)
    (hlen : ∀ r ∈ m, r.length = T) (ht : t < T) (hi : i < m.length) :
    get3 (unsqueeze2 (transpose01 m)) t i 0 = (m.getD i []).getD t 0 := by
  match m with
  | [] => exact absurd hi (by simp)
  | r :: rest =>
    have hr : r.length = T := hlen r (by simp)
    rw [get3, unsqueeze2, transpose01_cons, hr, List.map_map]
    rw [getD_map_of_lt (List.range T) _ t 0 []
      (by rw [List.length_range]; exact ht)]
    rw [List.getD_eq_getElem?_getD (List.range T) t, List.getElem?_range ht]
    simp only [Option.getD_some, Function.comp, List.map_map]
    rw [getD_map_of_lt (r :: rest) _ i [] [] hi]
    simp

lemma shape_unsq_transpose (m : List (List ℝ)) (T : ℕ)
    (hne : m ≠ []) (hlen : ∀ r ∈ m, r.length = T) :
    hasShape3 (unsqueeze2 (transpose01 m)) T m.length 1 := by
  match m with
  | [] => exact absurd rfl hne
  | r :: rest =>
    have hr : r.length = T := hlen r (by simp)
    rw [unsqueeze2, transpose01_cons, hr, List.map_map]
    refine ⟨by simp, ?_⟩
    intro row hrow
    rw [List.mem_map] at hrow
    obtain ⟨t, _, hteq⟩ := hrow
    constructor
    · rw [← hteq]
      simp [Function.comp]
    · intro c hc
      rw [← hteq] at hc
      simp only [Function.comp, List.map_map, List.mem_map] at hc
      obtain ⟨v, _, hveq⟩ := hc
      rw [← hveq]
      rfl

lemma y_in_2d_row_length (L B : ℕ) (noise : ℝ) (randIn : ℕ → ℕ → ℝ) :
    ∀ r ∈ y_in_2d L B noise randIn, r.length = L - 1 := by
  intro r hr
  rw [y_in_2d, List.mem_ofFn] at hr
  obtain ⟨i, hi⟩ := hr
  rw [← hi, length_noiseRow, length_rollList, length_y_in_1d]

lemma y_out_2d_row_length (L B : ℕ) (noise : ℝ) (randOut : ℕ → ℕ → ℝ) :
    ∀ r ∈ y_out_2d L B noise randOut, r.length = L - 1 := by
  intro r hr
  rw [y_out_2d, List.mem_ofFn] at hr
  obtain ⟨i, hi⟩ := hr
  rw [← hi, length_noiseRow, length_rollList, length_y_out_1d]

lemma y_in_shape (L B : ℕ) (noise : ℝ) (randIn : ℕ → ℕ → ℝ) (hB : 0 < B) :
    hasShape3 (y_in L B noise randIn) (L - 1) B 1 := by
  have h := shape_unsq_transpose (y_in_2d L B noise randIn) (L - 1)
    (by rw [← List.length_pos]; simp [y_in_2d]; omega)
    (y_in_2d_row_length L B noise randIn)
  rwa [show (y_in_2d L B noise randIn).length = B by simp [y_in_2d]] at h

lemma y_out_shape (L B : ℕ) (noise : ℝ) (randOut : ℕ → ℕ → ℝ) (hB : 0 < B) :
    hasShape3 (y_out L B noise randOut) (L - 1) B 1 := by
  have h := shape_unsq_transpose (y_out_2d L B noise randOut) (L - 1)
    (by rw [← List.length_pos]; simp [y_out_2d]; omega)
    (y_out_2d_row_length L B noise randOut)
  rwa [show (y_out_2d L B noise randOut).length = B by simp [y_out_2d]] at h

lemma y_in_entry (L B : ℕ) (noise : ℝ) (randIn : ℕ → ℕ → ℝ) (t i : ℕ)
    (ht : t < L - 1) (hi : i < B) :
    get3 (y_in L B noise randIn) t i 0 =
      yVal L (rollIdx (L - 1) (100 * i) t) + noise * randIn i t := by
  have hT : 0 < L - 1 := by omega
  rw [y_in, get3_unsq_transpose _ (L - 1) t i (y_in_2d_row_length L B noise randIn) ht
    (by simp [y_in_2d]; exact hi)]
  rw [y_in_2d, getD_ofFn_of_lt _ i [] hi]
  have hlr : t < (rollList (100 * i) (y_in_1d L)).length := by
    rw [length_rollList, length_y_in_1d]; exact ht
  rw [noiseRow_getD _ _ _ t hlr]
  rw [rollList_getD _ _ t (by rw [length_y_in_1d]; exact ht)]
  rw [length_rollList, length_y_in_1d] at *
  rw [y_in_1d_getD L _ (rollIdx_lt (L - 1) (100 * i) t hT)]

lemma y_out_entry (L B : ℕ) (noise : ℝ) (randOut : ℕ → ℕ → ℝ) (t i : ℕ)
    (ht : t < L - 1) (hi : i < B) :
    get3 (y_out L B noise randOut) t i 0 =
      yVal L (rollIdx (L - 1) (100 * i) t + 1) + noise * randOut i t := by
  have hT : 0 < L - 1 := by omega
  rw [y_out, get3_unsq_transpose _ (L - 1) t i (y_out_2d_row_length L B noise randOut) ht
    (by simp [y_out_2d]; exact hi)]
  rw [y_out_2d, getD_ofFn_of_lt _ i [] hi]
  have hlr : t < (rollList (100 * i) (y_out_1d L)).length := by
    rw [length_rollList, length_y_out_1d]; exact ht
  rw [noiseRow_getD _ _ _ t hlr]
  rw [rollList_getD _ _ t (by rw [length_y_out_1d]; exact ht)]
  rw [length_rollList, length_y_out_1d] at *
  rw [y_out_1d_getD L _ (rollIdx_lt (L - 1) (100 * i) t hT)]

/-! ### Endpoint values of the sampled signal -/

lemma yVal_zero_idx (L : ℕ) : yVal L 0 = 0.5 := by
  rw [yVal, linVal, yOfX]
  simp

lemma yVal_last_idx (L : ℕ) (hL : 1 < L) : yVal L (L - 1) = 0.5 := by
  have h1 : ((L - 1 : ℕ) : ℝ) ≠ 0 := by
    have : 0 < L - 1 := by omega
    exact_mod_cast Nat.pos_iff_ne_zero.mp this
  have hx : linVal L (L - 1) = 8 * Real.pi := by
    rw [linVal, zero_add, sub_zero, mul_div_assoc, div_self h1, mul_one]
  rw [yVal, hx, yOfX]
  have h8 : (8 : ℝ) * Real.pi = ((8 : ℕ) : ℝ) * Real.pi := by norm_num
  rw [h8, Real.sin_nat_mul_pi]
  ring

/-! ### Derived length facts and the dataset construction step -/

lemma y_in_length_eq (L B : ℕ) (noise : ℝ) (randIn : ℕ → ℕ → ℝ) (hB : 0 < B) :
    (y_in L B noise randIn).length = L - 1 :=
  (y_in_shape L B noise randIn hB).1

lemma y_out_length_eq (L B : ℕ) (noise : ℝ) (randOut : ℕ → ℕ → ℝ) (hB : 0 < B) :
    (y_out L B noise randOut).length = L - 1 :=
  (y_out_shape L B noise randOut hB).1

/-- Dataset construction step of the script (lines 90-100), wrapped in `Except`
so that the presence or absence of a raised error is part of the result.  The
source performs no validation of SEQ_LEN whatsoever, so the computation is
straight-line and always returns ok. -/
noncomputable def buildDataset (L B : ℕ) (noise : ℝ) (randIn randOut : ℕ → ℕ → ℝ) :
    Except String (Tensor3 × Tensor3) :=
  Except.ok (y_in L B noise randIn, y_out L B noise randOut)

/-- Time series of batch element i of the input tensor, read off along the
time axis. -/
noncomputable def batchSeries (L B : ℕ) (noise : ℝ) (randIn : ℕ → ℕ → ℝ) (i : ℕ) :
    List ℝ :=
  (List.range (L - 1)).map (fun t => get3 (y_in L B noise randIn) t i 0)

/-! ### Claim C1 -/

/-- C1: for every configured sequence length L > 1 and batch size B >= 1, the
dataset construction produces input and target tensors of shape (L-1, B, 1),
and with the source noise constant (NOISE = 0) the target at time t equals the
input at time t+1 for every batch element and every t with t+1 < L-1. -/
theorem dataset_shape_and_next_step_target (L B : ℕ) (randIn randOut : ℕ → ℕ → ℝ)
    (hL : 1 < L) (hB : 1 ≤ B) :
    hasShape3 (y_in L B NOISE randIn) (L - 1) B 1 ∧
    hasShape3 (y_out L B NOISE randOut) (L - 1) B 1 ∧
    ∀ i t, i < B → t + 1 < L - 1 →
      get3 (y_out L B NOISE randOut) t i 0 =
        get3 (y_in L B NOISE randIn) (t + 1) i 0 := by
  refine ⟨y_in_shape L B NOISE randIn (by omega),
          y_out_shape L B NOISE randOut (by omega), ?_⟩
  intro i t hi ht
  have hT : 0 < L - 1 := by omega
  rw [y_out_entry L B NOISE randOut t i (by omega) hi]
  rw [y_in_entry L B NOISE randIn (t + 1) i ht hi]
  simp only [NOISE, zero_mul, add_zero]
  rw [rollIdx_succ]
  have hklt : rollIdx (L - 1) (100 * i) t < L - 1 := rollIdx_lt _ _ _ hT
  by_cases hcase : rollIdx (L - 1) (100 * i) t + 1 < L - 1
  · rw [Nat.mod_eq_of_lt hcase]
  · have hkeq : rollIdx (L - 1) (100 * i) t + 1 = L - 1 := by omega
    rw [hkeq, Nat.mod_self, yVal_zero_idx, yVal_last_idx L hL]

/-- Witness for C1 at the concrete input L = 3, B = 2. -/
theorem dataset_shape_and_next_step_target_witness :
    ((1 : ℕ) < 3 ∧ (1 : ℕ) ≤ 2) ∧
    (hasShape3 (y_in 3 2 NOISE (fun _ _ => 0)) (3 - 1) 2 1 ∧
     hasShape3 (y_out 3 2 NOISE (fun _ _ => 0)) (3 - 1) 2 1 ∧
     ∀ i t, i < 2 → t + 1 < 3 - 1 →
       get3 (y_out 3 2 NOISE (fun _ _ => 0)) t i 0 =
         get3 (y_in 3 2 NOISE (fun _ _ => 0)) (t + 1) i 0) :=
  ⟨⟨by norm_num, by norm_num⟩,
   dataset_shape_and_next_step_target 3 2 (fun _ _ => 0) (fun _ _ => 0)
     (by norm_num) (by norm_num)⟩

/-! ### Claim C2 -/

/-- C2: with the source noise constant (NOISE = 0), the input time series of
batch element i is the cyclic roll by 100*i samples (modulo L-1) of the input
time series of batch element 0. -/
theorem batch_cyclic_shift (L B i : ℕ) (randIn : ℕ → ℕ → ℝ)
    (hL : 1 < L) (hi : i < B) :
    batchSeries L B NOISE randIn i =
      rollList (100 * i) (batchSeries L B NOISE randIn 0) := by
  have hT : 0 < L - 1 := by omega
  have hB : 0 < B := by omega
  have hlen : (batchSeries L B NOISE randIn 0).length = L - 1 := by
    simp [batchSeries]
  rw [rollList, hlen, batchSeries]
  apply List.map_congr_left
  intro t htmem
  rw [List.mem_range] at htmem
  have hr : rollIdx (L - 1) (100 * i) t < L - 1 := rollIdx_lt _ _ _ hT
  rw [batchSeries, getD_map_range (L - 1) _ _ 0 hr]
  rw [y_in_entry L B NOISE randIn t i htmem hi]
  rw [y_in_entry L B NOISE randIn _ 0 hr hB]
  simp only [NOISE, zero_mul, add_zero, Nat.mul_zero]
  rw [rollIdx_zero_shift (L - 1) _ hr]

/-- Witness for C2 at the concrete input L = 3, B = 2, i = 1. -/
theorem batch_cyclic_shift_witness :
    ((1 : ℕ) < 3 ∧ (1 : ℕ) < 2) ∧
    batchSeries 3 2 NOISE (fun _ _ => 0) 1 =
      rollList (100 * 1) (batchSeries 3 2 NOISE (fun _ _ => 0) 0) :=
  ⟨⟨by norm_num, by norm_num⟩,
   batch_cyclic_shift 3 2 1 (fun _ _ => 0) (by norm_num) (by norm_num)⟩

/-! ### Claim C3 -/

/-- C3 counterexample: at L = 1 the script raises nothing at all; the dataset
construction succeeds and silently yields empty (length-0) input and target
tensors, refuting the claim that an InvalidSequenceLength error is raised
before any array construction. -/
theorem no_invalid_seq_len_error_at_L1 :
    (buildDataset 1 5 NOISE (fun _ _ => 0) (fun _ _ => 0)).isOk = true ∧
    (y_in 1 5 NOISE (fun _ _ => 0)).length = 0 ∧
    (y_out 1 5 NOISE (fun _ _ => 0)).length = 0 := by
  refine ⟨rfl, ?_, ?_⟩
  · rw [y_in_length_eq 1 5 NOISE _ (by norm_num)]
  · rw [y_out_length_eq 1 5 NOISE _ (by norm_num)]

/-- C3 amended: if the configured sequence length satisfies L <= 1 the program
raises no error at all; dataset construction proceeds and silently produces
empty input and target tensors (length-0 time dimension). -/
theorem short_seq_silent_empty (L B : ℕ) (noise : ℝ) (randIn randOut : ℕ → ℕ → ℝ)
    (hL : L ≤ 1) (hB : 0 < B) :
    (buildDataset L B noise randIn randOut).isOk = true ∧
    (y_in L B noise randIn).length = 0 ∧
    (y_out L B noise randOut).length = 0 := by
  refine ⟨rfl, ?_, ?_⟩
  · rw [y_in_length_eq L B noise _ hB]; omega
  · rw [y_out_length_eq L B noise _ hB]; omega

/-- Witness for the amended C3 at the concrete input L = 1, B = 5. -/
theorem short_seq_silent_empty_witness :
    ((1 : ℕ) ≤ 1 ∧ (0 : ℕ) < 5) ∧
    ((buildDataset 1 5 NOISE (fun _ _ => 0) (fun _ _ => 0)).isOk = true ∧
     (y_in 1 5 NOISE (fun _ _ => 0)).length = 0 ∧
     (y_out 1 5 NOISE (fun _ _ => 0)).length = 0) :=
  ⟨⟨le_refl 1, by norm_num⟩,
   short_seq_silent_empty 1 5 NOISE (fun _ _ => 0) (fun _ _ => 0)
     (le_refl 1) (by norm_num)⟩

/-! ### Training loop

The model, the optimizer and the loss backward pass live in the aihwkit and
torch libraries, outside the example file.  They enter the embedding as
explicit function parameters: `forward` maps the current learnable parameters
and an input tensor to a prediction tensor (the first component of the pair
returned by `model(y_in)`), and `step` is the composite effect on the
parameters of one `loss.backward(); optimizer.step()` pair for the fixed
training pair (y_in, y_out).  Parameters themselves are abstract: any type
works, and we fix a list of reals as the carrier. -/

/-- Carrier for the learnable parameters owned by the model instance. -/
abbrev Params := List ℝ

/-- Flatten a rank-3 tensor into its elements in order. -/
def flatten3 (t : Tensor3) : List ℝ := (t.map List.flatten).flatten

/-- Model of `nn.MSELoss()` (line 191): mean of squared differences over all
elements of two same-shaped tensors. -/
noncomputable def mseLoss (pred target : Tensor3) : ℝ :=
  (List.zipWith (fun a b => (a - b) ^ 2) (flatten3 pred) (flatten3 target)).sum /
    ((flatten3 pred).length : ℝ)

lemma sum_sq_diff_nonneg (l1 l2 : List ℝ) :
    0 ≤ (List.zipWith (fun a b => (a - b) ^ 2) l1 l2).sum := by
  apply List.sum_nonneg
  intro x hx
  induction l1 generalizing l2 with
  | nil => simp at hx
  | cons a as ih =>
    cases l2 with
    | nil => simp at hx
    | cons b bs =>
      rw [List.zipWith_cons_cons, List.mem_cons] at hx
      rcases hx with h | h
      · rw [h]; exact sq_nonneg _
      · exact ih bs h

lemma mseLoss_nonneg (pred target : Tensor3) : 0 ≤ mseLoss pred target :=
  div_nonneg (sum_sq_diff_nonneg _ _) (Nat.cast_nonneg _)

/-- Log of one training run: the final parameters together with, in epoch
order, the recorded losses (line 205), the perplexity values printed (line
200) and the tensors passed to the model and the loss criterion. -/
structure TrainLog where
  params : Params
  losses : List ℝ
  prints : List ℝ
  inputsSeen : List Tensor3
  targetsSeen : List Tensor3

/-- The training loop of lines 194-205.  Each epoch clears the accumulated
gradients, computes the model output on the full training input, computes the
MSE loss against the target, prints the exponential of that loss, propagates
gradients and applies one optimizer update (`step`), and records the loss;
the loss recorded and printed is computed from the parameters as they were
before the update of that epoch. -/
noncomputable def trainIter (forward : Params → Tensor3 → Tensor3)
    (step : Params → Params) (yin yout : Tensor3) : ℕ → Params → TrainLog
  | 0, θ => ⟨θ, [], [], [], []⟩
  | n + 1, θ =>
    let loss := mseLoss (forward θ yin) yout
    let rest := trainIter forward step yin yout n (step θ)
    ⟨rest.params, loss :: rest.losses, Real.exp loss :: rest.prints,
      yin :: rest.inputsSeen, yout :: rest.targetsSeen⟩

lemma trainIter_losses_length (forward : Params → Tensor3 → Tensor3)
    (step : Params → Params) (yin yout : Tensor3) (n : ℕ) (θ : Params) :
    (trainIter forward step yin yout n θ).losses.length = n := by
  induction n generalizing θ with
  | zero => rfl
  | succ m ih => simp [trainIter, ih]

lemma trainIter_params (forward : Params → Tensor3 → Tensor3)
    (step : Params → Params) (yin yout : Tensor3) (n : ℕ) (θ : Params) :
    (trainIter forward step yin yout n θ).params = step^[n] θ := by
  induction n generalizing θ with
  | zero => rfl
  | succ m ih =>
    rw [Function.iterate_succ_apply]
    simp [trainIter, ih]

lemma trainIter_losses_get (forward : Params → Tensor3 → Tensor3)
    (step : Params → Params) (yin yout : Tensor3) (n : ℕ) (θ : Params) (i : ℕ)
    (h : i < n) :
    (trainIter forward step yin yout n θ).losses[i]? =
      some (mseLoss (forward (step^[i] θ) yin) yout) := by
  induction n generalizing θ i with
  | zero => omega
  | succ m ih =>
    cases i with
    | zero => simp [trainIter]
    | succ j =>
      have hj : j < m := by omega
      simp only [trainIter, List.getElem?_cons_succ]
      rw [ih (step θ) j hj, Function.iterate_succ_apply]

lemma trainIter_prints_get (forward : Params → Tensor3 → Tensor3)
    (step : Params → Params) (yin yout : Tensor3) (n : ℕ) (θ : Params) (i : ℕ)
    (h : i < n) :
    (trainIter forward step yin yout n θ).prints[i]? =
      some (Real.exp (mseLoss (forward (step^[i] θ) yin) yout)) := by
  induction n generalizing θ i with
  | zero => omega
  | succ m ih =>
    cases i with
    | zero => simp [trainIter]
    | succ j =>
      have hj : j < m := by omega
      simp only [trainIter, List.getElem?_cons_succ]
      rw [ih (step θ) j hj, Function.iterate_succ_apply]

lemma trainIter_losses_nonneg (forward : Params → Tensor3 → Tensor3)
    (step : Params → Params) (yin yout : Tensor3) (n : ℕ) (θ : Params) :
    ∀ l ∈ (trainIter forward step yin yout n θ).losses, 0 ≤ l := by
  induction n generalizing θ with
  | zero => intro l hl; simp [trainIter] at hl
  | succ m ih =>
    intro l hl
    simp only [trainIter, List.mem_cons] at hl
    rcases hl with h | h
    · rw [h]; exact mseLoss_nonneg _ _
    · exact ih (step θ) l h

lemma trainIter_prints_eq_exp (forward : Params → Tensor3 → Tensor3)
    (step : Params → Params) (yin yout : Tensor3) (n : ℕ) (θ : Params) :
    (trainIter forward step yin yout n θ).prints =
      (trainIter forward step yin yout n θ).losses.map Real.exp := by
  induction n generalizing θ with
  | zero => rfl
  | succ m ih => simp [trainIter, ih]

lemma trainIter_inputsSeen (forward : Params → Tensor3 → Tensor3)
    (step : Params → Params) (yin yout : Tensor3) (n : ℕ) (θ : Params) :
    (trainIter forward step yin yout n θ).inputsSeen = List.replicate n yin := by
  induction n generalizing θ with
  | zero => rfl
  | succ m ih => simp [trainIter, ih, List.replicate_succ]

lemma trainIter_targetsSeen (forward : Params → Tensor3 → Tensor3)
    (step : Params → Params) (yin yout : Tensor3) (n : ℕ) (θ : Params) :
    (trainIter forward step yin yout n θ).targetsSeen = List.replicate n yout := by
  induction n generalizing θ with
  | zero => rfl
  | succ m ih => simp [trainIter, ih, List.replicate_succ]

/-! ### Claim C4 -/

/-- C4: for a fixed epoch count E >= 1 the training loop runs exactly E
iterations; each records the MSE loss of the epoch (computed before that
epoch exactly one optimizer update is applied, so after E epochs the
parameters are the E-fold iterate of the update); the recorded loss sequence
has exactly E entries, each non-negative (and, the values being real numbers
of the model, finite); the printed perplexity sequence is exactly the
elementwise exponential of the recorded losses and feeds back into nothing. -/
theorem training_loop_loss_history (E : ℕ) (forward : Params → Tensor3 → Tensor3)
    (step : Params → Params) (θ0 : Params) (yin yout : Tensor3) (hE : 1 ≤ E) :
    (trainIter forward step yin yout E θ0).losses.length = E ∧
    (∀ l ∈ (trainIter forward step yin yout E θ0).losses, 0 ≤ l) ∧
    (trainIter forward step yin yout E θ0).params = step^[E] θ0 ∧
    (trainIter forward step yin yout E θ0).prints =
      (trainIter forward step yin yout E θ0).losses.map Real.exp :=
  ⟨trainIter_losses_length forward step yin yout E θ0,
   trainIter_losses_nonneg forward step yin yout E θ0,
   trainIter_params forward step yin yout E θ0,
   trainIter_prints_eq_exp forward step yin yout E θ0⟩

/-- Witness for C4 at the concrete input E = 1 with trivial collaborators. -/
theorem training_loop_loss_history_witness :
    (1 : ℕ) ≤ 1 ∧
    ((trainIter (fun _ _ => []) id [] [] 1 []).losses.length = 1 ∧
     (∀ l ∈ (trainIter (fun _ _ => []) id [] [] 1 []).losses, 0 ≤ l) ∧
     (trainIter (fun _ _ => []) id [] [] 1 []).params = id^[1] [] ∧
     (trainIter (fun _ _ => []) id [] [] 1 []).prints =
       (trainIter (fun _ _ => []) id [] [] 1 []).losses.map Real.exp) :=
  ⟨le_refl 1,
   training_loop_loss_history 1 (fun _ _ => []) id [] [] [] (le_refl 1)⟩

/-! ### Claim C9 -/

/-- C9: the loss recorded at position i of the loss history is the one
computed from the parameters as they were before the update of epoch i,
namely the i-fold iterate of the optimizer update applied to the initial
parameters (position 0 is the untrained model), and the perplexity printed
at epoch i is the exponential of exactly that recorded value. -/
theorem loss_recorded_pre_update (E : ℕ) (forward : Params → Tensor3 → Tensor3)
    (step : Params → Params) (θ0 : Params) (yin yout : Tensor3) (i : ℕ)
    (hi : i < E) :
    (trainIter forward step yin yout E θ0).losses[i]? =
      some (mseLoss (forward (step^[i] θ0) yin) yout) ∧
    (trainIter forward step yin yout E θ0).prints[i]? =
      some (Real.exp (mseLoss (forward (step^[i] θ0) yin) yout)) :=
  ⟨trainIter_losses_get forward step yin yout E θ0 i hi,
   trainIter_prints_get forward step yin yout E θ0 i hi⟩

/-- Witness for C9 at the concrete input E = 1, i = 0. -/
theorem loss_recorded_pre_update_witness :
    (0 : ℕ) < 1 ∧
    ((trainIter (fun _ _ => []) id [] [] 1 []).losses[0]? =
       some (mseLoss ((fun (_ : Params) (_ : Tensor3) => ([] : Tensor3)) (id^[0] []) []) []) ∧
     (trainIter (fun _ _ => []) id [] [] 1 []).prints[0]? =
       some (Real.exp (mseLoss ((fun (_ : Params) (_ : Tensor3) => ([] : Tensor3)) (id^[0] []) []) []))) :=
  ⟨Nat.zero_lt_one,
   loss_recorded_pre_update 1 (fun _ _ => []) id [] [] [] 0 Nat.zero_lt_one⟩

/-! ### Drift sweep -/

/-- Left-to-right cumulative application of the drift mutator for the listed
elapsed-time values. -/
noncomputable def applyDrifts (drift : ℝ → Params → Params) (ts : List ℝ)
    (θ : Params) : Params :=
  ts.foldl (fun p t => drift t p) θ

/-- The fixed elapsed-time checkpoints `[0., 1., 20., 1000., 1e5]` of the
sweep (line 231). -/
noncomputable def driftTimes : List ℝ := [0, 1, 20, 1000, 100000]

/-- Log of the drift sweep: final model state, the (elapsed time, prediction)
observations in sweep order, and the tensors passed to the model. -/
structure SweepLog where
  params : Params
  obs : List (ℝ × Tensor3)
  inputsSeen : List Tensor3

/-- The drift sweep loop of lines 229-236: for each elapsed-time value, the
drift operation mutates the model state in place (cumulatively: no
re-initialization between sweep points), then the prediction on the training
input is computed and collected. -/
noncomputable def driftSweep (drift : ℝ → Params → Params)
    (forward : Params → Tensor3 → Tensor3) (yin : Tensor3) :
    List ℝ → Params → SweepLog
  | [], θ => ⟨θ, [], []⟩
  | t :: ts, θ =>
    let θd := drift t θ
    let pred := forward θd yin
    let rest := driftSweep drift forward yin ts θd
    ⟨rest.params, (t, pred) :: rest.obs, yin :: rest.inputsSeen⟩

lemma applyDrifts_cons (drift : ℝ → Params → Params) (t : ℝ) (ts : List ℝ)
    (θ : Params) :
    applyDrifts drift (t :: ts) θ = applyDrifts drift ts (drift t θ) := rfl

lemma driftSweep_obs_length (drift : ℝ → Params → Params)
    (forward : Params → Tensor3 → Tensor3) (yin : Tensor3) (ts : List ℝ)
    (θ : Params) :
    (driftSweep drift forward yin ts θ).obs.length = ts.length := by
  induction ts generalizing θ with
  | nil => rfl
  | cons t rest ih => simp [driftSweep, ih]

lemma driftSweep_obs_fst (drift : ℝ → Params → Params)
    (forward : Params → Tensor3 → Tensor3) (yin : Tensor3) (ts : List ℝ)
    (θ : Params) :
    (driftSweep drift forward yin ts θ).obs.map Prod.fst = ts := by
  induction ts generalizing θ with
  | nil => rfl
  | cons t rest ih => simp [driftSweep, ih]

lemma driftSweep_obs_get (drift : ℝ → Params → Params)
    (forward : Params → Tensor3 → Tensor3) (yin : Tensor3) (ts : List ℝ)
    (θ : Params) (k : ℕ) (hk : k < ts.length) :
    (driftSweep drift forward yin ts θ).obs[k]? =
      some (ts.getD k 0, forward (applyDrifts drift (ts.take (k + 1)) θ) yin) := by
  induction ts generalizing θ k with
  | nil => simp at hk
  | cons t rest ih =>
    cases k with
    | zero => simp [driftSweep, applyDrifts]
    | succ j =>
      have hj : j < rest.length := by simpa using hk
      simp only [driftSweep, List.getElem?_cons_succ]
      rw [ih (drift t θ) j hj]
      rfl

lemma driftSweep_obs_shape (drift : ℝ → Params → Params)
    (forward : Params → Tensor3 → Tensor3) (yin : Tensor3) (ts : List ℝ)
    (θ : Params) (d0 d1 d2 : ℕ)
    (hf : ∀ p, hasShape3 (forward p yin) d0 d1 d2) :
    ∀ o ∈ (driftSweep drift forward yin ts θ).obs, hasShape3 o.2 d0 d1 d2 := by
  induction ts generalizing θ with
  | nil => intro o ho; simp [driftSweep] at ho
  | cons t rest ih =>
    intro o ho
    simp only [driftSweep, List.mem_cons] at ho
    rcases ho with h | h
    · rw [h]; exact hf _
    · exact ih (drift t θ) o h

lemma driftSweep_inputsSeen (drift : ℝ → Params → Params)
    (forward : Params → Tensor3 → Tensor3) (yin : Tensor3) (ts : List ℝ)
    (θ : Params) :
    (driftSweep drift forward yin ts θ).inputsSeen = List.replicate ts.length yin := by
  induction ts generalizing θ with
  | nil => rfl
  | cons t rest ih => simp [driftSweep, ih, List.replicate_succ]

/-! ### Whole-script model -/

/-- Observable side effects of the script: directory creation (line 87),
console printing (lines 200 and 219) and image writes (lines 212, 225, 236). -/
inductive Event
  | mkdirP : List String → Event
  | print : ℝ → Event
  | saveFig : List String → String → Event

/-- Path RESULTS built by os.path.join from the working directory and the
components results and RNN (line 86),
as path components relative to the working directory. -/
def RESULTS : List String := ["results", "RNN"]

/-- Result of one end-to-end run of the script body. -/
structure ScriptRun where
  yin : Tensor3
  yout : Tensor3
  losses : List ℝ
  trainedParams : Params
  testPred : Tensor3
  testLoss : ℝ
  driftObs : List (ℝ × Tensor3)
  forwardInputs : List Tensor3
  lossTargets : List Tensor3
  events : List Event

/-- End-to-end model of the script: dataset construction (lines 90-100),
training loop (194-205), training plot (207-213), test evaluation and plot
(216-226), drift sweep and plot (229-237).  The aihwkit collaborators enter
as the parameters `forward` (model prediction), `step` (one optimizer update)
and `drift` (the elapsed-time weight mutator); the torch random draws enter
as `randIn`/`randOut`.  `forwardInputs` records every tensor passed to the
model across training, evaluation and the sweep, and `lossTargets` every
tensor the loss criterion compares against. -/
noncomputable def runScript (forward : Params → Tensor3 → Tensor3)
    (step : Params → Params) (drift : ℝ → Params → Params) (θ0 : Params)
    (randIn randOut : ℕ → ℕ → ℝ) : ScriptRun :=
  let yin := y_in SEQ_LEN BATCH_SIZE NOISE randIn
  let yout := y_out SEQ_LEN BATCH_SIZE NOISE randOut
  let tl := trainIter forward step yin yout EPOCHS θ0
  let testPred := forward tl.params yin
  let testLoss := mseLoss testPred yout
  let ds := driftSweep drift forward yin driftTimes tl.params
  { yin := yin
    yout := yout
    losses := tl.losses
    trainedParams := tl.params
    testPred := testPred
    testLoss := testLoss
    driftObs := ds.obs
    forwardInputs := tl.inputsSeen ++ [yin] ++ ds.inputsSeen
    lossTargets := tl.targetsSeen ++ [yout]
    events := Event.mkdirP RESULTS :: (tl.prints.map Event.print
      ++ [Event.saveFig RESULTS "train_perplexity"]
      ++ [Event.print (Real.exp testLoss), Event.saveFig RESULTS "test"]
      ++ [Event.saveFig RESULTS "drift"]) }

set_option maxRecDepth 10000

lemma runScript_yin (forward : Params → Tensor3 → Tensor3) (step : Params → Params)
    (drift : ℝ → Params → Params) (θ0 : Params) (randIn randOut : ℕ → ℕ → ℝ) :
    (runScript forward step drift θ0 randIn randOut).yin =
      y_in SEQ_LEN BATCH_SIZE NOISE randIn := rfl

lemma runScript_yout (forward : Params → Tensor3 → Tensor3) (step : Params → Params)
    (drift : ℝ → Params → Params) (θ0 : Params) (randIn randOut : ℕ → ℕ → ℝ) :
    (runScript forward step drift θ0 randIn randOut).yout =
      y_out SEQ_LEN BATCH_SIZE NOISE randOut := rfl

lemma runScript_trainedParams (forward : Params → Tensor3 → Tensor3)
    (step : Params → Params) (drift : ℝ → Params → Params) (θ0 : Params)
    (randIn randOut : ℕ → ℕ → ℝ) :
    (runScript forward step drift θ0 randIn randOut).trainedParams =
      (trainIter forward step (y_in SEQ_LEN BATCH_SIZE NOISE randIn)
        (y_out SEQ_LEN BATCH_SIZE NOISE randOut) EPOCHS θ0).params := rfl

lemma runScript_testPred (forward : Params → Tensor3 → Tensor3)
    (step : Params → Params) (drift : ℝ → Params → Params) (θ0 : Params)
    (randIn randOut : ℕ → ℕ → ℝ) :
    (runScript forward step drift θ0 randIn randOut).testPred =
      forward (runScript forward step drift θ0 randIn randOut).trainedParams
        (y_in SEQ_LEN BATCH_SIZE NOISE randIn) := rfl

lemma runScript_driftObs (forward : Params → Tensor3 → Tensor3)
    (step : Params → Params) (drift : ℝ → Params → Params) (θ0 : Params)
    (randIn randOut : ℕ → ℕ → ℝ) :
    (runScript forward step drift θ0 randIn randOut).driftObs =
      (driftSweep drift forward (y_in SEQ_LEN BATCH_SIZE NOISE randIn) driftTimes
        (runScript forward step drift θ0 randIn randOut).trainedParams).obs := rfl

lemma runScript_forwardInputs (forward : Params → Tensor3 → Tensor3)
    (step : Params → Params) (drift : ℝ → Params → Params) (θ0 : Params)
    (randIn randOut : ℕ → ℕ → ℝ) :
    (runScript forward step drift θ0 randIn randOut).forwardInputs =
      (trainIter forward step (y_in SEQ_LEN BATCH_SIZE NOISE randIn)
          (y_out SEQ_LEN BATCH_SIZE NOISE randOut) EPOCHS θ0).inputsSeen
        ++ [y_in SEQ_LEN BATCH_SIZE NOISE randIn]
        ++ (driftSweep drift forward (y_in SEQ_LEN BATCH_SIZE NOISE randIn) driftTimes
            (runScript forward step drift θ0 randIn randOut).trainedParams).inputsSeen := rfl

lemma runScript_lossTargets (forward : Params → Tensor3 → Tensor3)
    (step : Params → Params) (drift : ℝ → Params → Params) (θ0 : Params)
    (randIn randOut : ℕ → ℕ → ℝ) :
    (runScript forward step drift θ0 randIn randOut).lossTargets =
      (trainIter forward step (y_in SEQ_LEN BATCH_SIZE NOISE randIn)
          (y_out SEQ_LEN BATCH_SIZE NOISE randOut) EPOCHS θ0).targetsSeen
        ++ [y_out SEQ_LEN BATCH_SIZE NOISE randOut] := rfl

lemma runScript_events (forward : Params → Tensor3 → Tensor3)
    (step : Params → Params) (drift : ℝ → Params → Params) (θ0 : Params)
    (randIn randOut : ℕ → ℕ → ℝ) :
    (runScript forward step drift θ0 randIn randOut).events =
      Event.mkdirP RESULTS ::
        ((trainIter forward step (y_in SEQ_LEN BATCH_SIZE NOISE randIn)
            (y_out SEQ_LEN BATCH_SIZE NOISE randOut) EPOCHS θ0).prints.map Event.print
          ++ [Event.saveFig RESULTS "train_perplexity"]
          ++ [Event.print (Real.exp (runScript forward step drift θ0 randIn randOut).testLoss),
              Event.saveFig RESULTS "test"]
          ++ [Event.saveFig RESULTS "drift"]) := rfl

/-! ### Claim C5 -/

/-- C5: the drift sweep produces exactly 5 observations, one per elapsed-time
value in the fixed order [0, 1, 20, 1000, 100000]; the model state is mutated
cumulatively (the k-th prediction comes from applying the first k+1 drift
calls in order to the post-training state, with no re-initialization between
sweep points); and when the model forward pass has a fixed output shape on
the training input, every sweep prediction has the same shape as the baseline
test prediction. -/
theorem drift_sweep_observations (forward : Params → Tensor3 → Tensor3)
    (step : Params → Params) (drift : ℝ → Params → Params) (θ0 : Params)
    (randIn randOut : ℕ → ℕ → ℝ) (d0 d1 d2 : ℕ)
    (hshape : ∀ p, hasShape3 (forward p (y_in SEQ_LEN BATCH_SIZE NOISE randIn)) d0 d1 d2) :
    (runScript forward step drift θ0 randIn randOut).driftObs.length = 5 ∧
    (runScript forward step drift θ0 randIn randOut).driftObs.map Prod.fst = driftTimes ∧
    (∀ k, k < 5 →
      (runScript forward step drift θ0 randIn randOut).driftObs[k]? =
        some (driftTimes.getD k 0,
          forward (applyDrifts drift (driftTimes.take (k + 1))
              (runScript forward step drift θ0 randIn randOut).trainedParams)
            (y_in SEQ_LEN BATCH_SIZE NOISE randIn))) ∧
    hasShape3 (runScript forward step drift θ0 randIn randOut).testPred d0 d1 d2 ∧
    ∀ o ∈ (runScript forward step drift θ0 randIn randOut).driftObs,
      hasShape3 o.2 d0 d1 d2 := by
  rw [runScript_driftObs, runScript_testPred]
  refine ⟨?_, driftSweep_obs_fst _ _ _ _ _, ?_, hshape _, ?_⟩
  · rw [driftSweep_obs_length]
    rfl
  · intro k hk
    exact driftSweep_obs_get drift forward _ driftTimes _ k
      (by rw [show driftTimes.length = 5 from rfl]; exact hk)
  · exact driftSweep_obs_shape drift forward _ driftTimes _ d0 d1 d2 hshape

/-- Witness for C5 with trivial collaborators and the empty output shape. -/
theorem drift_sweep_observations_witness :
    (∀ p : Params, hasShape3 ((fun (_ : Params) (_ : Tensor3) => ([] : Tensor3)) p
        (y_in SEQ_LEN BATCH_SIZE NOISE (fun _ _ => 0))) 0 0 0) ∧
    ((runScript (fun _ _ => []) id (fun _ p => p) [] (fun _ _ => 0)
        (fun _ _ => 0)).driftObs.length = 5 ∧
     (runScript (fun _ _ => []) id (fun _ p => p) [] (fun _ _ => 0)
        (fun _ _ => 0)).driftObs.map Prod.fst = driftTimes ∧
     (∀ k, k < 5 →
       (runScript (fun _ _ => []) id (fun _ p => p) [] (fun _ _ => 0)
          (fun _ _ => 0)).driftObs[k]? =
         some (driftTimes.getD k 0,
           (fun (_ : Params) (_ : Tensor3) => ([] : Tensor3))
             (applyDrifts (fun _ p => p) (driftTimes.take (k + 1))
               (runScript (fun _ _ => []) id (fun _ p => p) [] (fun _ _ => 0)
                  (fun _ _ => 0)).trainedParams)
             (y_in SEQ_LEN BATCH_SIZE NOISE (fun _ _ => 0)))) ∧
     hasShape3 (runScript (fun _ _ => []) id (fun _ p => p) [] (fun _ _ => 0)
        (fun _ _ => 0)).testPred 0 0 0 ∧
     ∀ o ∈ (runScript (fun _ _ => []) id (fun _ p => p) [] (fun _ _ => 0)
        (fun _ _ => 0)).driftObs, hasShape3 o.2 0 0 0) :=
  ⟨fun _ => ⟨rfl, by simp⟩,
   drift_sweep_observations (fun _ _ => []) id (fun _ p => p) [] (fun _ _ => 0)
     (fun _ _ => 0) 0 0 0 (fun _ => ⟨rfl, by simp⟩)⟩

/-! ### Claim C7 -/

/-- Selector for image-write events. -/
def isFileWrite : Event → Bool
  | Event.saveFig _ _ => true
  | _ => false

/-- Selector for all filesystem effects (directory creation or image write). -/
def isFSEffect : Event → Bool
  | Event.print _ => false
  | _ => true

lemma filter_print_map (p : Event → Bool) (hp : ∀ x, p (Event.print x) = false)
    (l : List ℝ) :
    (l.map Event.print).filter p = [] := by
  induction l with
  | nil => rfl
  | cons a as ih => simp [List.filter_cons, hp, ih]

/-- C7: the filesystem effects of one run are exactly, in order, the creation
of the results directory (created if absent) and the writes of the three
image files train_perplexity, test and drift into it; nothing else is
persisted. -/
theorem script_filesystem_effects (forward : Params → Tensor3 → Tensor3)
    (step : Params → Params) (drift : ℝ → Params → Params) (θ0 : Params)
    (randIn randOut : ℕ → ℕ → ℝ) :
    (runScript forward step drift θ0 randIn randOut).events.filter isFileWrite =
      [Event.saveFig RESULTS "train_perplexity", Event.saveFig RESULTS "test",
       Event.saveFig RESULTS "drift"] ∧
    (runScript forward step drift θ0 randIn randOut).events.filter isFSEffect =
      [Event.mkdirP RESULTS, Event.saveFig RESULTS "train_perplexity",
       Event.saveFig RESULTS "test", Event.saveFig RESULTS "drift"] := by
  constructor
  · rw [runScript_events]
    simp only [List.filter_cons, List.filter_append,
      filter_print_map isFileWrite (fun _ => rfl)]
    simp [isFileWrite]
  · rw [runScript_events]
    simp only [List.filter_cons, List.filter_append,
      filter_print_map isFSEffect (fun _ => rfl)]
    simp [isFSEffect]

/-! ### Claim C8 -/

/-- Modelled from the spec: the operation `model.drift_analog_weights(t)` is
aihwkit library code, not part of the example file.  The spec glossary
defines drift as simulated decay of analog-stored weight values over elapsed
time, applied as an external mutating operation on the model, and the spec
states that zero elapsed time implies no decay.  We model the operation as
scaling every stored weight by a decay coefficient exp(-(nu*t)) for a device
decay rate nu, a coefficient that equals one at elapsed time zero. -/
noncomputable def drift_analog_weights (nu t : ℝ) (θ : Params) : Params :=
  θ.map (fun w => Real.exp (-(nu * t)) * w)

lemma drift_analog_weights_zero (nu : ℝ) (θ : Params) :
    drift_analog_weights nu 0 θ = θ := by
  simp [drift_analog_weights]

/-- C8: invoking the drift operation with elapsed time 0 immediately after
training leaves the baseline prediction unchanged: the first sweep
observation is the pair (0, baseline test prediction) exactly. -/
theorem drift_zero_preserves_baseline (nu : ℝ) (forward : Params → Tensor3 → Tensor3)
    (step : Params → Params) (θ0 : Params) (randIn randOut : ℕ → ℕ → ℝ) :
    (runScript forward step (drift_analog_weights nu) θ0 randIn randOut).driftObs[0]? =
      some (0,
        (runScript forward step (drift_analog_weights nu) θ0 randIn randOut).testPred) := by
  rw [runScript_driftObs, runScript_testPred]
  rw [driftSweep_obs_get _ _ _ _ _ 0 (by rw [show driftTimes.length = 5 from rfl]; omega)]
  rw [show driftTimes.take (0 + 1) = [(0 : ℝ)] from rfl]
  rw [applyDrifts_cons, drift_analog_weights_zero]
  rfl

/-! ### Claim C10 -/

/-- C10: the input and target tensors are built once from the source
constants; the run holds them unchanged, and the very same tensors are passed
to the model for every one of the EPOCHS training epochs, for the baseline
evaluation and for all five drift-sweep predictions, and to the loss
criterion for every epoch and for the test loss. -/
theorem dataset_tensors_reused_unmutated (forward : Params → Tensor3 → Tensor3)
    (step : Params → Params) (drift : ℝ → Params → Params) (θ0 : Params)
    (randIn randOut : ℕ → ℕ → ℝ) :
    (runScript forward step drift θ0 randIn randOut).yin =
      y_in SEQ_LEN BATCH_SIZE NOISE randIn ∧
    (runScript forward step drift θ0 randIn randOut).yout =
      y_out SEQ_LEN BATCH_SIZE NOISE randOut ∧
    (runScript forward step drift θ0 randIn randOut).forwardInputs =
      List.replicate (EPOCHS + 1 + 5)
        (runScript forward step drift θ0 randIn randOut).yin ∧
    (runScript forward step drift θ0 randIn randOut).lossTargets =
      List.replicate (EPOCHS + 1)
        (runScript forward step drift θ0 randIn randOut).yout := by
  refine ⟨rfl, rfl, ?_, ?_⟩
  · rw [runScript_forwardInputs, runScript_yin, trainIter_inputsSeen,
      driftSweep_inputsSeen]
    rw [show driftTimes.length = 5 from rfl]
    rw [List.replicate_add, List.replicate_add]
    rfl
  · rw [runScript_lossTargets, runScript_yout, trainIter_targetsSeen]
    rw [List.replicate_add]
    rfl

/-! ### Claim C6: the four model variants

The layers themselves (AnalogLinear, AnalogRNN, nn.Dropout) are library code;
each enters as the function it computes on sequences.  The bidirectional and
unidirectional variants differ only in the externally constructed recurrent
layer, i.e. in the value of the `rnn` field; the four class bodies in the
source contain exactly two distinct forward compositions. -/

/-- Layer fields of `AnalogBidirRNNNetwork` (lines 105-115) and
`AnalogRNNNetwork` (lines 141-151): dropout, embedding, recurrent layer and
decoder. -/
structure EmbedNetParts (T S : Type) where
  dropout : T → T
  embedding : T → T
  rnn : T → Option S → T × S
  decoder : T → T

/-- Layer fields of `AnalogBidirRNNNetwork_noEmbedding` (lines 123-133) and
`AnalogRNNNetwork_noEmbedding` (lines 160-170). -/
structure NoEmbedNetParts (T S : Type) where
  dropout : T → T
  rnn : T → Option S → T × S
  decoder : T → T

/-- Forward pass of `AnalogBidirRNNNetwork` (lines 117-121). -/
def AnalogBidirRNNNetwork.forward {T S : Type} (net : EmbedNetParts T S)
    (x_in : T) (in_states : Option S) : T × S :=
  let embed := net.dropout (net.embedding x_in)
  let res := net.rnn embed in_states
  (net.dropout (net.decoder res.1), res.2)

/-- Forward pass of `AnalogRNNNetwork` (lines 153-157). -/
def AnalogRNNNetwork.forward {T S : Type} (net : EmbedNetParts T S)
    (x_in : T) (in_states : Option S) : T × S :=
  let embed := net.dropout (net.embedding x_in)
  let res := net.rnn embed in_states
  (net.dropout (net.decoder res.1), res.2)

/-- Forward pass of `AnalogBidirRNNNetwork_noEmbedding` (lines 135-139). -/
def AnalogBidirRNNNetwork_noEmbedding.forward {T S : Type} (net : NoEmbedNetParts T S)
    (x_in : T) (in_states : Option S) : T × S :=
  let res := net.rnn x_in in_states
  (net.dropout (net.decoder res.1), res.2)

/-- Forward pass of `AnalogRNNNetwork_noEmbedding` (lines 172-176). -/
def AnalogRNNNetwork_noEmbedding.forward {T S : Type} (net : NoEmbedNetParts T S)
    (x_in : T) (in_states : Option S) : T × S :=
  let res := net.rnn x_in in_states
  (net.dropout (net.decoder res.1), res.2)

/-- The pipeline exactly as the claim words it for the embedding variants:
embedding projection, then the recurrent layer, then dropout, then the
decoder projection. -/
def specClaimedPipeline {T S : Type} (net : EmbedNetParts T S)
    (x_in : T) (in_states : Option S) : T × S :=
  let res := net.rnn (net.embedding x_in) in_states
  (net.decoder (net.dropout res.1), res.2)

/-- The pipeline the source actually computes for the embedding variants:
embedding, then dropout, then the recurrent layer, then the decoder, then
dropout again. -/
def amendedPipelineEmbed {T S : Type} (net : EmbedNetParts T S)
    (x_in : T) (in_states : Option S) : T × S :=
  let res := net.rnn (net.dropout (net.embedding x_in)) in_states
  (net.dropout (net.decoder res.1), res.2)

/-- The pipeline the source actually computes for the no-embedding variants:
the recurrent layer, then the decoder, then dropout. -/
def amendedPipelineNoEmbed {T S : Type} (net : NoEmbedNetParts T S)
    (x_in : T) (in_states : Option S) : T × S :=
  let res := net.rnn x_in in_states
  (net.dropout (net.decoder res.1), res.2)

/-- Predicate: every time step and batch element carries exactly one feature
channel. -/
def lastDim1 (t : Tensor3) : Prop := ∀ r ∈ t, ∀ c ∈ r, c.length = 1

/-- A concrete network instance over natural numbers with a dropout module
that is not the identity, separating the claimed pipeline from the code. -/
def cexNet : EmbedNetParts ℕ Unit :=
  { dropout := fun n => n + 1
    embedding := id
    rnn := fun n _ => (n, ())
    decoder := id }

/-- C6 counterexample: the source applies dropout after the decoder (and,
in the embedding variants, once more after the embedding), not between the
recurrent layer and the decoder as the claim states, so on a network whose
dropout module is not the identity the claimed pipeline disagrees with the
forward pass of the code. -/
theorem forward_pipeline_order_counterexample :
    AnalogBidirRNNNetwork.forward cexNet 0 none ≠ specClaimedPipeline cexNet 0 none := by
  decide

/-- C6 amended: every one of the four model variants computes its forward
pass as the fixed pipeline of optional embedding projection followed by
dropout, then the recurrent layer, then the linear decoder projection, then
dropout; every forward operation accepts an input sequence and an optional
prior recurrent state and returns the pair of the output sequence and the
final recurrent state of the recurrent layer; and whenever the decoder
projects to a single output channel per time step and dropout preserves that
shape, so does the whole forward output. -/
theorem forward_pipeline_amended :
    (∀ (T S : Type) (net : EmbedNetParts T S) (x : T) (s : Option S),
      AnalogBidirRNNNetwork.forward net x s = amendedPipelineEmbed net x s ∧
      AnalogRNNNetwork.forward net x s = amendedPipelineEmbed net x s ∧
      (AnalogBidirRNNNetwork.forward net x s).2 =
        (net.rnn (net.dropout (net.embedding x)) s).2) ∧
    (∀ (T S : Type) (net : NoEmbedNetParts T S) (x : T) (s : Option S),
      AnalogBidirRNNNetwork_noEmbedding.forward net x s = amendedPipelineNoEmbed net x s ∧
      AnalogRNNNetwork_noEmbedding.forward net x s = amendedPipelineNoEmbed net x s ∧
      (AnalogBidirRNNNetwork_noEmbedding.forward net x s).2 = (net.rnn x s).2) ∧
    (∀ (S : Type) (net : EmbedNetParts Tensor3 S) (x : Tensor3) (s : Option S),
      (∀ u : Tensor3, lastDim1 (net.decoder u)) →
      (∀ u : Tensor3, lastDim1 u → lastDim1 (net.dropout u)) →
      lastDim1 (AnalogBidirRNNNetwork.forward net x s).1) := by
  refine ⟨fun T S net x s => ⟨rfl, rfl, rfl⟩,
          fun T S net x s => ⟨rfl, rfl, rfl⟩,
          fun S net x s hdec hdrop => ?_⟩
  exact hdrop _ (hdec _)

/-- A concrete tensor-valued network instance for the C6 witness: identity
dropout and a decoder returning the empty tensor, which trivially has one
channel per present element. -/
def witNet : EmbedNetParts Tensor3 Unit :=
  { dropout := id
    embedding := id
    rnn := fun x _ => (x, ())
    decoder := fun _ => [] }

/-- Witness for the amended C6 at a concrete network instance. -/
theorem forward_pipeline_amended_witness :
    (AnalogBidirRNNNetwork.forward witNet [] none = amendedPipelineEmbed witNet [] none) ∧
    ((∀ u : Tensor3, lastDim1 (witNet.decoder u)) ∧
     (∀ u : Tensor3, lastDim1 u → lastDim1 (witNet.dropout u))) ∧
    lastDim1 (AnalogBidirRNNNetwork.forward witNet [] none).1 :=
  ⟨(forward_pipeline_amended.1 Tensor3 Unit witNet [] none).1,
   ⟨fun _ => by simp [lastDim1, witNet], fun _ h => h⟩,
   forward_pipeline_amended.2.2 Unit witNet [] none
     (fun _ => by simp [lastDim1, witNet]) (fun _ h => h)⟩

end SimpleLSTM
